import Mathlib

/-!
Shallow embedding of the quiz-generation core of `gemini-quizify`
(`src/generate_quiz.py`): the `QuizGenerator` constructor, the assembly loop
`generate_quiz`, and the uniqueness check `validate_question`.

Modelling conventions:
* A decoded JSON candidate (a Python dict) is a `QuestionDict` whose fields
  model the values at keys `question`, `choices`, `answer`, `explanation`;
  `none` models an absent key.  A dict is truthy iff it is non-empty, i.e.
  at least one of the modelled keys is present.
* Python exceptions are modelled by `Except PyError`: the `ValueError` of the
  constructor, the `KeyError` raised by `question['question']` on a dict
  without that key, and the exceptions raised inside
  `generate_question_with_vectorstore` when the LLM or the vectorstore is
  unavailable (grouped as `genUnavailable`).
* The external synthesizer `generate_question_with_vectorstore` together with
  `json.loads` on its raw string output is modelled by an oracle
  `synth : Nat → SynthResult` indexed by the number of calls made so far in
  the run: each call either raises (`exc`), returns a string on which
  `json.loads` raises `JSONDecodeError` (`decodeFail`), or returns a string
  decoding to the dict `q` (`ok q`).  Indexing by call count captures every
  deterministic per-run behaviour of the external generator.
* The inner retry loop of `generate_quiz` is `for _ in range(0, 10)`; the
  embedding `runSlot`/`runSlots` takes the retry bound as an explicit
  parameter and `QuizGenerator.generate_quiz` instantiates it with the
  source's literal constant 10.
-/

/-- One entry of the `choices` list: a dict `{"key": ..., "value": ...}`. -/
structure Choice where
  key : String
  value : String
deriving DecidableEq, Repr

/-- A decoded candidate question: a Python dict with the modelled keys
`question`, `choices`, `answer`, `explanation`; `none` means the key is
absent. -/
structure QuestionDict where
  question : Option String
  choices : Option (List Choice)
  answer : Option String
  explanation : Option String
deriving DecidableEq, Repr

/-- Python-dict truthiness: a dict is truthy iff it is non-empty. -/
def QuestionDict.isTruthy (q : QuestionDict) : Bool :=
  q.question.isSome || q.choices.isSome || q.answer.isSome || q.explanation.isSome

/-- The exceptions the embedded code can raise: `ValueError` from the
constructor, `KeyError` from subscripting a dict without the key, and the
generator-initialization failures raised by
`generate_question_with_vectorstore` (`Exception("Failed to initialize llm")`
or `ValueError("Vectorstore not provided.")`), grouped as `genUnavailable`. -/
inductive PyError where
  | valueError
  | keyError
  | genUnavailable
deriving DecidableEq, Repr

/-- One outcome of calling `generate_question_with_vectorstore` followed by
`json.loads`: the call raises, the decode raises, or a dict comes back. -/
inductive SynthResult where
  | exc
  | decodeFail
  | ok (q : QuestionDict)
deriving DecidableEq, Repr

/-- The state of a `QuizGenerator` instance: the fields set by `__init__`
that the assembly loop reads (`topic`, `num_questions`, `question_bank`). -/
structure QuizGenerator where
  topic : String
  num_questions : Int
  question_bank : List QuestionDict
deriving DecidableEq, Repr

/-- `QuizGenerator.__init__(topic, num_questions)`: a falsy `topic` defaults
to `"General Knowledge"`; `num_questions > 10` raises `ValueError`; the
question bank starts empty.  The constructor performs no synthesizer call
(the embedding does not even receive the oracle). -/
def QuizGenerator.init (topic : String) (num_questions : Int) :
    Except PyError QuizGenerator :=
  if num_questions > 10 then
    Except.error PyError.valueError
  else
    Except.ok
      { topic := if topic = "" then "General Knowledge" else topic
      , num_questions := num_questions
      , question_bank := [] }

/-- The `for dictionary in self.question_bank` scan of `validate_question`:
compares `dictionary['question']` (raising `KeyError` when the key is
absent) against the candidate text, clearing `is_unique` on a match; the
Python loop has no `break`, so the whole bank is scanned. -/
def scanBank (question_text : String) : List QuestionDict → Bool → Except PyError Bool
  | [], is_unique => Except.ok is_unique
  | d :: rest, is_unique =>
    match d.question with
    | none => Except.error PyError.keyError
    | some dq => scanBank question_text rest (is_unique && decide (dq ≠ question_text))

/-- `QuizGenerator.validate_question(question)` reading `self.question_bank`:
extracts `question['question']` (raising `KeyError` when absent), returns
`False` when the text is falsy, otherwise scans the bank for an exact,
case-sensitive match. -/
def QuizGenerator.validate_question (bank : List QuestionDict) (q : QuestionDict) :
    Except PyError Bool :=
  match q.question with
  | none => Except.error PyError.keyError
  | some question_text =>
    if question_text = "" then Except.ok false
    else scanBank question_text bank true

/-- The inner retry loop of `generate_quiz` for one slot: up to `r` cycles
(`for _ in range(0, 10)` in the source, with the bound as a parameter).
Each cycle calls the synthesizer (incrementing the call counter); a raise
propagates, a `JSONDecodeError` is absorbed (`continue`), a decoded dict is
appended iff it is truthy and `validate_question` accepts it (`break`), and
otherwise the cycle is retried.  Returns the outcome (final bank, or the
propagated exception) paired with the call counter. -/
def runSlot (synth : Nat → SynthResult) :
    Nat → List QuestionDict → Nat → Except PyError (List QuestionDict) × Nat
  | 0, bank, calls => (Except.ok bank, calls)
  | r + 1, bank, calls =>
    match synth calls with
    | SynthResult.exc => (Except.error PyError.genUnavailable, calls + 1)
    | SynthResult.decodeFail => runSlot synth r bank (calls + 1)
    | SynthResult.ok q =>
      if q.isTruthy then
        match QuizGenerator.validate_question bank q with
        | Except.error e => (Except.error e, calls + 1)
        | Except.ok true => (Except.ok (bank ++ [q]), calls + 1)
        | Except.ok false => runSlot synth r bank (calls + 1)
      else
        runSlot synth r bank (calls + 1)

/-- The outer loop of `generate_quiz`: `n` slots (`for _ in
range(self.num_questions)`), each run with retry bound `retries`; a raise in
a slot propagates and aborts the run. -/
def runSlots (synth : Nat → SynthResult) (retries : Nat) :
    Nat → List QuestionDict → Nat → Except PyError (List QuestionDict) × Nat
  | 0, bank, calls => (Except.ok bank, calls)
  | n + 1, bank, calls =>
    match runSlot synth retries bank calls with
    | (Except.error e, c) => (Except.error e, c)
    | (Except.ok bank2, c) => runSlots synth retries n bank2 c

/-- `QuizGenerator.generate_quiz()`: runs `num_questions` slots (Python's
`range` is empty for a non-positive count, hence `Int.toNat`) with the
source's hardcoded retry bound 10, starting from the instance's current
`question_bank` — the commented-out reset line 136 means the bank is NOT
cleared between runs. -/
def QuizGenerator.generate_quiz (g : QuizGenerator) (synth : Nat → SynthResult) :
    Except PyError (List QuestionDict) × Nat :=
  runSlots synth 10 g.num_questions.toNat g.question_bank 0

/-- Well-formedness as §3 of the spec words it: non-empty `prompt`, non-empty
`choices`, and `answer` equal to some choice's label.  This is the spec-side
predicate (the source never checks the last two conjuncts). -/
def specWellFormed (q : QuestionDict) : Bool :=
  (match q.question with
   | some t => !(t = "")
   | none => false) &&
  (match q.choices, q.answer with
   | some cs, some a => !cs.isEmpty && cs.any (fun c => c.key = a)
   | _, _ => false)

deriving instance DecidableEq for Except

-- Sanity checks on concrete runs (kept as anonymous examples).

/-- A well-formed sample candidate with prompt "Q". -/
def sampleQ : QuestionDict :=
  { question := some "Q"
  , choices := some [⟨"A", "a"⟩, ⟨"B", "b"⟩, ⟨"C", "c"⟩, ⟨"D", "d"⟩]
  , answer := some "A"
  , explanation := some "because" }

/-- A well-formed sample candidate with prompt "R". -/
def sampleR : QuestionDict :=
  { sampleQ with question := some "R" }

example : (QuizGenerator.generate_quiz ⟨"T", 2, []⟩ (fun _ => SynthResult.ok sampleQ)).2 = 11 := by
  decide

example : (QuizGenerator.generate_quiz ⟨"T", 2, []⟩ (fun _ => SynthResult.ok sampleQ)).1
    = Except.ok [sampleQ] := by decide

example : (QuizGenerator.generate_quiz ⟨"T", 1, []⟩
    (fun _ => SynthResult.ok ⟨none, none, some "A", none⟩)).1
    = Except.error PyError.keyError := by decide

example : QuizGenerator.init "" 11 = Except.error PyError.valueError := by decide

example : QuizGenerator.init "" 1
    = Except.ok ⟨"General Knowledge", 1, []⟩ := by decide

/-! ### Lemmas about one slot -/

/-- Each slot makes at most `r` synthesizer calls beyond the counter it
starts from. -/
theorem runSlot_calls_le (synth : Nat → SynthResult) :
    ∀ (r : Nat) (bank : List QuestionDict) (calls : Nat),
      (runSlot synth r bank calls).2 ≤ calls + r := by
  intro r
  induction r with
  | zero =>
    intro bank calls
    simp [runSlot]
  | succ r ih =>
    intro bank calls
    rw [runSlot]
    split
    · show calls + 1 ≤ calls + (r + 1)
      omega
    · have := ih bank (calls + 1)
      omega
    · split
      · split
        · show calls + 1 ≤ calls + (r + 1)
          omega
        · show calls + 1 ≤ calls + (r + 1)
          omega
        · have := ih bank (calls + 1)
          omega
      · have := ih bank (calls + 1)
        omega

/-- A slot that finishes without raising leaves the bank unchanged or appends
exactly one candidate, and that candidate was truthy and accepted by
`validate_question` against the bank as it stood. -/
theorem runSlot_ok_shape (synth : Nat → SynthResult) :
    ∀ (r : Nat) (bank : List QuestionDict) (calls : Nat) (res : List QuestionDict),
      (runSlot synth r bank calls).1 = Except.ok res →
      res = bank ∨ ∃ q, res = bank ++ [q] ∧ q.isTruthy = true ∧
        QuizGenerator.validate_question bank q = Except.ok true := by
  intro r
  induction r with
  | zero =>
    intro bank calls res h
    simp [runSlot] at h
    exact Or.inl h.symm
  | succ r ih =>
    intro bank calls res h
    rw [runSlot] at h
    split at h
    · simp at h
    · exact ih bank (calls + 1) res h
    · rename_i q hs
      split at h
      · rename_i hq
        split at h
        · simp at h
        · rename_i hv
          simp at h
          exact Or.inr ⟨q, h.symm, hq, hv⟩
        · exact ih bank (calls + 1) res h
      · exact ih bank (calls + 1) res h

/-! ### Lemmas about `validate_question` -/

/-- If the bank scan completes and reports uniqueness, the flag it started
from was set and every bank entry carries a `question` key whose text
differs from the candidate's. -/
theorem scanBank_ok_true (question_text : String) :
    ∀ (bank : List QuestionDict) (u : Bool),
      scanBank question_text bank u = Except.ok true →
      u = true ∧ ∀ d ∈ bank, ∃ dq, d.question = some dq ∧ dq ≠ question_text := by
  intro bank
  induction bank with
  | nil =>
    intro u h
    simp [scanBank] at h
    exact ⟨h, by simp⟩
  | cons d rest ih =>
    intro u h
    rw [scanBank] at h
    split at h
    · simp at h
    · rename_i dq hd
      obtain ⟨hu, hrest⟩ := ih (u && decide (dq ≠ question_text)) h
      have hdq : dq ≠ question_text := by
        by_contra hc
        simp [hc] at hu
      refine ⟨by simpa [hdq] using hu, ?_⟩
      intro x hx
      rcases List.mem_cons.mp hx with hx | hx
      · exact ⟨dq, by simp [hx, hd], hdq⟩
      · exact hrest x hx

/-- An accepted candidate has a non-empty `question` text that differs from
every bank entry's text (and every bank entry carries the key). -/
theorem validate_ok_true (bank : List QuestionDict) (q : QuestionDict)
    (h : QuizGenerator.validate_question bank q = Except.ok true) :
    ∃ qt, q.question = some qt ∧ qt ≠ "" ∧
      ∀ d ∈ bank, ∃ dq, d.question = some dq ∧ dq ≠ qt := by
  rw [QuizGenerator.validate_question] at h
  split at h
  · simp at h
  · rename_i qt hq
    split at h
    · simp at h
    · rename_i he
      exact ⟨qt, hq, he, (scanBank_ok_true qt bank true h).2⟩

/-! ### Bank invariants -/

/-- Every entry of the bank carries a `question` key. -/
def promptsPresent (bank : List QuestionDict) : Prop :=
  ∀ d ∈ bank, d.question.isSome = true

/-- Every entry of the bank carries a non-empty `question` text. -/
def promptsNonempty (bank : List QuestionDict) : Prop :=
  ∀ d ∈ bank, ∃ t, d.question = some t ∧ t ≠ ""

/-- The `question` values of the bank are pairwise distinct. -/
def promptsDistinct (bank : List QuestionDict) : Prop :=
  bank.Pairwise (fun a b => a.question ≠ b.question)

/-- A slot that finishes without raising preserves non-emptiness of the
stored prompts. -/
theorem runSlot_ok_nonempty (synth : Nat → SynthResult) (r : Nat)
    (bank : List QuestionDict) (calls : Nat) (res : List QuestionDict)
    (h : (runSlot synth r bank calls).1 = Except.ok res)
    (hb : promptsNonempty bank) : promptsNonempty res := by
  obtain h1 | ⟨q, hq, _, hv⟩ := runSlot_ok_shape synth r bank calls res h
  · exact h1 ▸ hb
  · obtain ⟨qt, hqt, hne, _⟩ := validate_ok_true bank q hv
    intro d hd
    rw [hq] at hd
    rcases List.mem_append.mp hd with hd | hd
    · exact hb d hd
    · rw [List.mem_singleton.mp hd]
      exact ⟨qt, hqt, hne⟩

/-- A slot that finishes without raising preserves presence of the
`question` key across the bank. -/
theorem runSlot_ok_present (synth : Nat → SynthResult) (r : Nat)
    (bank : List QuestionDict) (calls : Nat) (res : List QuestionDict)
    (h : (runSlot synth r bank calls).1 = Except.ok res)
    (hb : promptsPresent bank) : promptsPresent res := by
  obtain h1 | ⟨q, hq, _, hv⟩ := runSlot_ok_shape synth r bank calls res h
  · exact h1 ▸ hb
  · obtain ⟨qt, hqt, _, _⟩ := validate_ok_true bank q hv
    intro d hd
    rw [hq] at hd
    rcases List.mem_append.mp hd with hd | hd
    · exact hb d hd
    · rw [List.mem_singleton.mp hd, hqt]
      rfl

/-- A slot that finishes without raising preserves distinctness of the
stored prompts: the appended candidate was validated against the very bank
it is appended to. -/
theorem runSlot_ok_distinct (synth : Nat → SynthResult) (r : Nat)
    (bank : List QuestionDict) (calls : Nat) (res : List QuestionDict)
    (h : (runSlot synth r bank calls).1 = Except.ok res)
    (hb : promptsDistinct bank) : promptsDistinct res := by
  obtain h1 | ⟨q, hq, _, hv⟩ := runSlot_ok_shape synth r bank calls res h
  · exact h1 ▸ hb
  · obtain ⟨qt, hqt, _, hall⟩ := validate_ok_true bank q hv
    rw [hq]
    rw [promptsDistinct, List.pairwise_append]
    refine ⟨hb, by simp, ?_⟩
    intro a ha b hbmem
    rw [List.mem_singleton.mp hbmem, hqt]
    obtain ⟨dq, hdq, hne⟩ := hall a ha
    rw [hdq]
    simp [hne]

/-! ### Lemmas about the outer loop -/

/-- The whole run makes at most `n * retries` synthesizer calls beyond the
counter it starts from, whether or not it raises. -/
theorem runSlots_calls_le (synth : Nat → SynthResult) (retries : Nat) :
    ∀ (n : Nat) (bank : List QuestionDict) (calls : Nat),
      (runSlots synth retries n bank calls).2 ≤ calls + n * retries := by
  intro n
  induction n with
  | zero =>
    intro bank calls
    simp [runSlots]
  | succ n ih =>
    intro bank calls
    rw [runSlots]
    have h1 := runSlot_calls_le synth retries bank calls
    split
    · rename_i e c heq
      rw [heq] at h1
      show c ≤ calls + (n + 1) * retries
      calc c ≤ calls + retries := h1
        _ ≤ calls + retries + n * retries := Nat.le_add_right _ _
        _ = calls + (n + 1) * retries := by ring
    · rename_i bank2 c heq
      rw [heq] at h1
      calc (runSlots synth retries n bank2 c).2 ≤ c + n * retries := ih bank2 c
        _ ≤ (calls + retries) + n * retries := Nat.add_le_add_right h1 _
        _ = calls + (n + 1) * retries := by ring

/-- A run that finishes without raising only ever appends, and appends at
most one candidate per slot. -/
theorem runSlots_ok_shape (synth : Nat → SynthResult) (retries : Nat) :
    ∀ (n : Nat) (bank : List QuestionDict) (calls : Nat) (res : List QuestionDict),
      (runSlots synth retries n bank calls).1 = Except.ok res →
      ∃ l, res = bank ++ l ∧ l.length ≤ n := by
  intro n
  induction n with
  | zero =>
    intro bank calls res h
    simp [runSlots] at h
    exact ⟨[], by simp [h], by simp⟩
  | succ n ih =>
    intro bank calls res h
    rw [runSlots] at h
    split at h
    · simp at h
    · rename_i bank2 c heq
      obtain ⟨l, hl, hlen⟩ := ih bank2 c res h
      obtain h1 | ⟨q, hq, _, _⟩ := runSlot_ok_shape synth retries bank calls bank2 (by rw [heq])
      · exact ⟨l, by rw [hl, h1], by omega⟩
      · refine ⟨q :: l, by rw [hl, hq]; simp, ?_⟩
        simp only [List.length_cons]
        omega

/-- A run that finishes without raising preserves non-emptiness of the
stored prompts. -/
theorem runSlots_ok_nonempty (synth : Nat → SynthResult) (retries : Nat) :
    ∀ (n : Nat) (bank : List QuestionDict) (calls : Nat) (res : List QuestionDict),
      (runSlots synth retries n bank calls).1 = Except.ok res →
      promptsNonempty bank → promptsNonempty res := by
  intro n
  induction n with
  | zero =>
    intro bank calls res h hb
    simp [runSlots] at h
    exact h ▸ hb
  | succ n ih =>
    intro bank calls res h hb
    rw [runSlots] at h
    split at h
    · simp at h
    · rename_i bank2 c heq
      exact ih bank2 c res h
        (runSlot_ok_nonempty synth retries bank calls bank2 (by rw [heq]) hb)

/-- A run that finishes without raising preserves distinctness of the
stored prompts. -/
theorem runSlots_ok_distinct (synth : Nat → SynthResult) (retries : Nat) :
    ∀ (n : Nat) (bank : List QuestionDict) (calls : Nat) (res : List QuestionDict),
      (runSlots synth retries n bank calls).1 = Except.ok res →
      promptsDistinct bank → promptsDistinct res := by
  intro n
  induction n with
  | zero =>
    intro bank calls res h hb
    simp [runSlots] at h
    exact h ▸ hb
  | succ n ih =>
    intro bank calls res h hb
    rw [runSlots] at h
    split at h
    · simp at h
    · rename_i bank2 c heq
      exact ih bank2 c res h
        (runSlot_ok_distinct synth retries bank calls bank2 (by rw [heq]) hb)

/-! ### Which exceptions can escape the loop -/

/-- A synthesizer whose decoded dicts, when truthy, always carry the
`question` key. -/
def keyedSynth (synth : Nat → SynthResult) : Prop :=
  ∀ k q, synth k = SynthResult.ok q → q.isTruthy = true → q.question.isSome = true

/-- The bank scan cannot raise when every bank entry carries the key. -/
theorem scanBank_isOk (question_text : String) :
    ∀ (bank : List QuestionDict) (u : Bool), promptsPresent bank →
      ∃ b, scanBank question_text bank u = Except.ok b := by
  intro bank
  induction bank with
  | nil =>
    intro u _
    exact ⟨u, rfl⟩
  | cons d rest ih =>
    intro u hp
    obtain ⟨dq, hdq⟩ := Option.isSome_iff_exists.mp (hp d (by simp))
    obtain ⟨b, hb⟩ := ih (u && decide (dq ≠ question_text))
      (fun x hx => hp x (List.mem_cons_of_mem d hx))
    refine ⟨b, ?_⟩
    rw [scanBank, hdq]
    exact hb

/-- `validate_question` cannot raise when the candidate and every bank
entry carry the key. -/
theorem validate_isOk (bank : List QuestionDict) (q : QuestionDict)
    (hq : q.question.isSome = true) (hb : promptsPresent bank) :
    ∃ b, QuizGenerator.validate_question bank q = Except.ok b := by
  obtain ⟨qt, hqt⟩ := Option.isSome_iff_exists.mp hq
  rw [QuizGenerator.validate_question, hqt]
  by_cases he : qt = ""
  · exact ⟨false, by simp [he]⟩
  · obtain ⟨b, hsb⟩ := scanBank_isOk qt bank true hb
    exact ⟨b, by simp [he, hsb]⟩

/-- With a keyed synthesizer and a keyed bank, the only exception a slot can
propagate is the generator-unavailability one. -/
theorem runSlot_error (synth : Nat → SynthResult) (hs : keyedSynth synth) :
    ∀ (r : Nat) (bank : List QuestionDict) (calls : Nat) (e : PyError),
      promptsPresent bank → (runSlot synth r bank calls).1 = Except.error e →
      e = PyError.genUnavailable := by
  intro r
  induction r with
  | zero =>
    intro bank calls e _ h
    simp [runSlot] at h
  | succ r ih =>
    intro bank calls e hb h
    rw [runSlot] at h
    split at h
    · simp at h
      exact h.symm
    · exact ih bank (calls + 1) e hb h
    · rename_i q hsq
      split at h
      · rename_i hq
        split at h
        · rename_i e2 hv
          obtain ⟨b, hok⟩ := validate_isOk bank q (hs _ _ hsq hq) hb
          rw [hok] at hv
          simp at hv
        · simp at h
        · exact ih bank (calls + 1) e hb h
      · exact ih bank (calls + 1) e hb h

/-- With a keyed synthesizer and a keyed bank, the only exception the whole
run can propagate is the generator-unavailability one: decode failures and
rejected candidates are absorbed. -/
theorem runSlots_error (synth : Nat → SynthResult) (retries : Nat)
    (hs : keyedSynth synth) :
    ∀ (n : Nat) (bank : List QuestionDict) (calls : Nat) (e : PyError),
      promptsPresent bank → (runSlots synth retries n bank calls).1 = Except.error e →
      e = PyError.genUnavailable := by
  intro n
  induction n with
  | zero =>
    intro bank calls e _ h
    simp [runSlots] at h
  | succ n ih =>
    intro bank calls e hb h
    rw [runSlots] at h
    split at h
    · rename_i e2 c heq
      simp at h
      exact h ▸ runSlot_error synth hs retries bank calls e2 hb (by rw [heq])
    · rename_i bank2 c heq
      exact ih bank2 c e
        (runSlot_ok_present synth retries bank calls bank2 (by rw [heq]) hb) h

/-! ### A closed form for `validate_question` -/

/-- Closed form of the bank scan when every entry carries the key. -/
theorem scanBank_eq (question_text : String) :
    ∀ (bank : List QuestionDict) (u : Bool), promptsPresent bank →
      scanBank question_text bank u
        = Except.ok (u && decide (∀ d ∈ bank, d.question ≠ some question_text)) := by
  intro bank
  induction bank with
  | nil =>
    intro u _
    simp [scanBank]
  | cons d rest ih =>
    intro u hp
    obtain ⟨dq, hdq⟩ := Option.isSome_iff_exists.mp (hp d (by simp))
    rw [scanBank, hdq]
    show scanBank question_text rest (u && decide (dq ≠ question_text))
      = Except.ok (u && decide (∀ x ∈ d :: rest, x.question ≠ some question_text))
    rw [ih _ (fun x hx => hp x (List.mem_cons_of_mem d hx))]
    congr 1
    simp [List.forall_mem_cons, hdq, Bool.decide_and, Bool.and_assoc]

/-- Closed form of `validate_question` when the candidate and the bank all
carry the key: it answers `false` exactly when the text is empty or an exact
case-sensitive duplicate of a bank entry's text, and `true` otherwise. -/
theorem validate_question_eq (bank : List QuestionDict) (q : QuestionDict)
    (qt : String) (hq : q.question = some qt) (hb : promptsPresent bank) :
    QuizGenerator.validate_question bank q
      = Except.ok (decide (qt ≠ "" ∧ ∀ d ∈ bank, d.question ≠ some qt)) := by
  rw [QuizGenerator.validate_question, hq]
  show (if qt = "" then Except.ok false else scanBank qt bank true)
    = Except.ok (decide (qt ≠ "" ∧ ∀ d ∈ bank, d.question ≠ some qt))
  by_cases he : qt = ""
  · simp [he]
  · rw [if_neg he, scanBank_eq qt bank true hb]
    simp [he, Bool.decide_and]

/-! ### The claims -/

/-- Claim C1: on a fresh instance with `target_count` in [0,10], whatever
the synthesizer does, `generate_quiz` makes at most `target_count * 10`
synthesizer calls (10 being the source's per-slot retry bound) and, when it
returns, the returned question bank has at most `target_count` entries. -/
theorem generate_quiz_bound (topic : String) (t : Int) (synth : Nat → SynthResult)
    (g : QuizGenerator) (h0 : 0 ≤ t) (h10 : t ≤ 10)
    (hg : QuizGenerator.init topic t = Except.ok g) :
    (g.generate_quiz synth).2 ≤ t.toNat * 10 ∧
      ∀ res, (g.generate_quiz synth).1 = Except.ok res → res.length ≤ t.toNat := by
  rw [QuizGenerator.init, if_neg (by omega)] at hg
  obtain rfl := Except.ok.inj hg
  constructor
  · simpa using runSlots_calls_le synth 10 t.toNat [] 0
  · intro res h
    obtain ⟨l, hl, hlen⟩ := runSlots_ok_shape synth 10 t.toNat [] 0 res h
    rw [hl]
    simpa using hlen

/-- Witness for C1: `target_count = 2` with a synthesizer that always
returns the same well-formed candidate. -/
theorem generate_quiz_bound_witness :
    ((QuizGenerator.mk "T" 2 []).generate_quiz fun _ => SynthResult.ok sampleQ).2
        ≤ (2 : Int).toNat * 10 ∧
      ∀ res, ((QuizGenerator.mk "T" 2 []).generate_quiz fun _ => SynthResult.ok sampleQ).1
          = Except.ok res → res.length ≤ (2 : Int).toNat :=
  generate_quiz_bound "T" 2 (fun _ => SynthResult.ok sampleQ) ⟨"T", 2, []⟩
    (by decide) (by decide) (by decide)

/-- Claim C2: a run starting from an empty `question_bank` returns a bank
whose `question` texts are pairwise distinct under case-sensitive exact
string equality. -/
theorem generate_quiz_prompts_distinct (g : QuizGenerator) (synth : Nat → SynthResult)
    (hb : g.question_bank = []) (res : List QuestionDict)
    (h : (g.generate_quiz synth).1 = Except.ok res) :
    promptsDistinct res := by
  rw [QuizGenerator.generate_quiz, hb] at h
  exact runSlots_ok_distinct synth 10 g.num_questions.toNat [] 0 res h
    (List.Pairwise.nil)

/-- Witness for C2: two slots fed "Q" then "R" produce a two-entry bank with
distinct prompts. -/
theorem generate_quiz_prompts_distinct_witness :
    promptsDistinct [sampleQ, sampleR] :=
  generate_quiz_prompts_distinct ⟨"T", 2, []⟩
    (fun k => if k = 0 then SynthResult.ok sampleQ else SynthResult.ok sampleR)
    rfl [sampleQ, sampleR] (by decide)

/-- Claim C3 fails on the code: `validate_question` checks only the
`question` text, so a decoded candidate with a non-empty prompt but no
`choices` and no `answer` is accepted into the final bank although it is
not well-formed in the spec's sense. -/
theorem generate_quiz_wellformed_cex :
    ((QuizGenerator.mk "T" 1 []).generate_quiz
        fun _ => SynthResult.ok ⟨some "Q", none, none, none⟩).1
      = Except.ok [⟨some "Q", none, none, none⟩] ∧
    specWellFormed ⟨some "Q", none, none, none⟩ = false := by
  decide

/-- Claim C3, amended: every entry of a bank returned by a run that started
from an empty `question_bank` has a present, non-empty `question` text; the
other two well-formedness conjuncts (non-empty `choices`, `answer` among the
choice labels) are not enforced by the code. -/
theorem generate_quiz_prompts_nonempty (g : QuizGenerator) (synth : Nat → SynthResult)
    (hb : g.question_bank = []) (res : List QuestionDict)
    (h : (g.generate_quiz synth).1 = Except.ok res) :
    promptsNonempty res := by
  rw [QuizGenerator.generate_quiz, hb] at h
  refine runSlots_ok_nonempty synth 10 g.num_questions.toNat [] 0 res h ?_
  intro d hd
  exact absurd hd (List.not_mem_nil d)

/-- Witness for the amended C3: one slot fed "R" produces a bank whose only
entry has a non-empty prompt. -/
theorem generate_quiz_prompts_nonempty_witness :
    promptsNonempty [sampleR] :=
  generate_quiz_prompts_nonempty ⟨"U", 1, []⟩ (fun _ => SynthResult.ok sampleR)
    rfl [sampleR] (by decide)

/-- Claim C4 fails on the code: a decoded candidate that is truthy but lacks
the `question` key is an invalid candidate (not well-formed), yet instead of
being absorbed it makes `validate_question` raise `KeyError`, which
propagates out of `generate_quiz`. -/
theorem generate_quiz_invalid_raises_cex :
    ((QuizGenerator.mk "T" 1 []).generate_quiz
        fun _ => SynthResult.ok ⟨none, none, some "A", some "e"⟩).1
      = Except.error PyError.keyError ∧
    specWellFormed ⟨none, none, some "A", some "e"⟩ = false := by
  decide

/-- Claim C4, amended: generator-initialization failure propagates out of
`generate_quiz` as a terminal exception, and — provided every truthy decoded
candidate carries the `question` key and every pre-existing bank entry does
too — it is the ONLY exception that can propagate: decode failures and
duplicate-or-invalid candidates are absorbed inside the loop.  (A truthy
candidate without the key raises `KeyError` instead, see the
counterexample.) -/
theorem generate_quiz_propagation (g : QuizGenerator) (synth : Nat → SynthResult)
    (hsynth : keyedSynth synth) (hbank : promptsPresent g.question_bank) :
    (∀ e, (g.generate_quiz synth).1 = Except.error e → e = PyError.genUnavailable) ∧
    (synth 0 = SynthResult.exc → 0 < g.num_questions →
      (g.generate_quiz synth).1 = Except.error PyError.genUnavailable) := by
  constructor
  · intro e h
    rw [QuizGenerator.generate_quiz] at h
    exact runSlots_error synth 10 hsynth g.num_questions.toNat g.question_bank 0 e hbank h
  · intro hexc hpos
    obtain ⟨n, hn⟩ : ∃ n, g.num_questions.toNat = n + 1 :=
      ⟨g.num_questions.toNat - 1, by omega⟩
    have hslot : runSlot synth 10 g.question_bank 0
        = (Except.error PyError.genUnavailable, 1) := by
      rw [show (10 : Nat) = 9 + 1 from rfl, runSlot, hexc]
    rw [QuizGenerator.generate_quiz, hn, runSlots, hslot]

/-- Witness for the amended C4: a synthesizer that raises on its first call
makes the run fail with the generator-unavailability exception. -/
theorem generate_quiz_propagation_witness :
    ((QuizGenerator.mk "T" 1 []).generate_quiz fun _ => SynthResult.exc).1
      = Except.error PyError.genUnavailable :=
  (generate_quiz_propagation ⟨"T", 1, []⟩ (fun _ => SynthResult.exc)
      (fun _ _ h _ => nomatch h) (fun d hd => nomatch hd)).2 rfl (by decide)

/-- Witness for C5: a duplicate of the sole bank entry is rejected and a
fresh prompt is accepted. -/
theorem validate_question_eq_witness :
    QuizGenerator.validate_question [sampleQ] sampleQ = Except.ok false ∧
    QuizGenerator.validate_question [sampleQ] sampleR = Except.ok true :=
  ⟨(validate_question_eq [sampleQ] sampleQ "Q" rfl
      (by unfold promptsPresent; decide)).trans (by decide),
   (validate_question_eq [sampleQ] sampleR "R" rfl
      (by unfold promptsPresent; decide)).trans (by decide)⟩

/-- Claim C6: constructing with `num_questions > 10` raises `ValueError`
(and involves no synthesizer: the constructor never receives the oracle);
any `num_questions ≤ 10` is accepted, with an empty initial bank. -/
theorem init_range (topic : String) (n : Int) :
    (10 < n → QuizGenerator.init topic n = Except.error PyError.valueError) ∧
    (n ≤ 10 → QuizGenerator.init topic n
      = Except.ok ⟨if topic = "" then "General Knowledge" else topic, n, []⟩) := by
  constructor
  · intro h
    rw [QuizGenerator.init, if_pos h]
  · intro h
    rw [QuizGenerator.init, if_neg (by omega)]

/-- Witness for C6 at `num_questions = 11` and `num_questions = 10`. -/
theorem init_range_witness :
    QuizGenerator.init "T" 11 = Except.error PyError.valueError ∧
    QuizGenerator.init "T" 10 = Except.ok ⟨"T", 10, []⟩ :=
  ⟨(init_range "T" 11).1 (by decide),
   ((init_range "T" 10).2 (by decide)).trans (by decide)⟩

/-- Claim C7: with the per-slot retry bound set to 5 (the source's inner
loop `for _ in range(0, 10)` with its literal bound as the parameter of
`runSlots`), a synthesizer stub that always returns the well-formed
candidate with prompt "Q" fills slot 0 on the first call, slot 1 exhausts
its 5 retries on duplicates, and the run ends with a one-entry bank after
exactly 1 + 5 = 6 calls. -/
theorem duplicate_rejection_six_calls :
    runSlots (fun _ => SynthResult.ok sampleQ) 5 2 [] 0 = (Except.ok [sampleQ], 6) := by
  decide

/-- Claim C8: a fresh instance with `target_count = 0` returns an empty bank
after zero synthesizer calls, whatever the synthesizer would do. -/
theorem generate_quiz_target_zero (topic : String) (synth : Nat → SynthResult)
    (g : QuizGenerator) (hg : QuizGenerator.init topic 0 = Except.ok g) :
    g.generate_quiz synth = (Except.ok [], 0) := by
  rw [QuizGenerator.init, if_neg (by omega)] at hg
  obtain rfl := Except.ok.inj hg
  rfl

/-- Witness for C8 with a synthesizer that would raise if it were ever
called. -/
theorem generate_quiz_target_zero_witness :
    (QuizGenerator.mk "T" 0 []).generate_quiz (fun _ => SynthResult.exc)
      = (Except.ok [], 0) :=
  generate_quiz_target_zero "T" (fun _ => SynthResult.exc) ⟨"T", 0, []⟩ (by decide)

/-- Claim C9: `generate_quiz` never resets `question_bank` (the reset line
is commented out): a run only ever appends to the instance's current bank —
the old bank is an initial segment of the result — and appends at most
`num_questions` entries, so a second run can return more than
`num_questions` questions. -/
theorem generate_quiz_no_reset (g : QuizGenerator) (synth : Nat → SynthResult)
    (res : List QuestionDict) (h : (g.generate_quiz synth).1 = Except.ok res) :
    (∃ l, res = g.question_bank ++ l) ∧
      res.length ≤ g.question_bank.length + g.num_questions.toNat := by
  rw [QuizGenerator.generate_quiz] at h
  obtain ⟨l, hl, hlen⟩ :=
    runSlots_ok_shape synth 10 g.num_questions.toNat g.question_bank 0 res h
  refine ⟨⟨l, hl⟩, ?_⟩
  rw [hl]
  simp only [List.length_append]
  omega

/-- Witness for C9: an instance whose bank already holds "Q" and whose
`num_questions` is 1 returns a two-entry bank — more than `num_questions`. -/
theorem generate_quiz_no_reset_witness :
    (∃ l, [sampleQ, sampleR] = [sampleQ] ++ l) ∧
      ([sampleQ, sampleR] : List QuestionDict).length
        ≤ ([sampleQ] : List QuestionDict).length + (1 : Int).toNat :=
  generate_quiz_no_reset ⟨"T", 1, [sampleQ]⟩ (fun _ => SynthResult.ok sampleR)
    [sampleQ, sampleR] (by decide)

/-- Claim C10: the constructor enforces no lower bound on `num_questions`:
every value `≤ 0` is accepted without error, and the run then returns an
empty bank after zero synthesizer calls (`range` of a non-positive count is
empty). -/
theorem init_no_lower_bound (topic : String) (n : Int) (hn : n ≤ 0)
    (synth : Nat → SynthResult) :
    ∃ g, QuizGenerator.init topic n = Except.ok g ∧
      g.generate_quiz synth = (Except.ok [], 0) := by
  refine ⟨⟨if topic = "" then "General Knowledge" else topic, n, []⟩, ?_, ?_⟩
  · rw [QuizGenerator.init, if_neg (by omega)]
  · rw [QuizGenerator.generate_quiz]
    have ht : n.toNat = 0 := by omega
    rw [ht]
    rfl

/-- Witness for C10 at `num_questions = -3`. -/
theorem init_no_lower_bound_witness :
    ∃ g, QuizGenerator.init "T" (-3) = Except.ok g ∧
      g.generate_quiz (fun _ => SynthResult.exc) = (Except.ok [], 0) :=
  init_no_lower_bound "T" (-3) (by decide) (fun _ => SynthResult.exc)
